import Mathlib

/-!
Verification of `app/auth/redis.py`: a TTL-bounded key-existence store used
as a token-revocation blacklist.  The Python module provides an in-memory
fallback redis (`_InMemoryRedis` with `set`, `exists`), a memoized factory
(`get_redis`), and the two operations `add_to_blacklist` / `is_blacklisted`.

The embedding makes time explicit: every operation takes `now : ℚ`, the
value `time.time()` would return at that call.  The Python dict `_data` is
embedded as a function `String → Option (String × Option ℚ)` (a key maps to
its `(value, expire)` pair, or to `none` when absent), which matches the
uniqueness of dict keys exactly.
-/

/-- State of `_InMemoryRedis`: the dict `self._data`, mapping each key to a
`(value, expire)` pair where `expire` is an absolute timestamp or `None`. -/
structure InMemoryRedis where
  data : String → Option (String × Option ℚ)

/-- The freshly constructed store (`__init__` / `from_url`): empty dict. -/
def InMemoryRedis.empty : InMemoryRedis := ⟨fun _ => none⟩

/-- `_InMemoryRedis.set(key, value, ex)`:
`expire = time.time() + ex if ex is not None else None`, then
`self._data[key] = (value, expire)`. -/
def InMemoryRedis.set (s : InMemoryRedis) (now : ℚ) (key value : String)
    (ex : Option ℤ) : InMemoryRedis :=
  let expire : Option ℚ := ex.map (fun e => now + (e : ℚ))
  ⟨fun k => if k = key then some (value, expire) else s.data k⟩

/-- `del self._data[key]`. -/
def InMemoryRedis.erase (s : InMemoryRedis) (key : String) : InMemoryRedis :=
  ⟨fun k => if k = key then none else s.data k⟩

/-- `_InMemoryRedis.exists(key)`: returns the int result together with the
state after the lazy purge (`item = self._data.get(key)`; missing → 0;
`expire is not None and time.time() > expire` → delete and 0; else 1). -/
def InMemoryRedis.exists (s : InMemoryRedis) (now : ℚ) (key : String) :
    ℕ × InMemoryRedis :=
  match s.data key with
  | none => (0, s)
  | some (_, expire) =>
    match expire with
    | some e => if now > e then (0, s.erase key) else (1, s)
    | none => (1, s)

/-- The key written and read for a jti: `f"blacklist:{jti}"`. -/
def blacklistKey (jti : String) : String := "blacklist:" ++ jti

/-- `add_to_blacklist(jti, exp)`: `redis.set(f"blacklist:{jti}", "1", ex=exp)`,
acting on the in-memory fallback store. -/
def add_to_blacklist (s : InMemoryRedis) (now : ℚ) (jti : String) (exp : ℤ) :
    InMemoryRedis :=
  s.set now (blacklistKey jti) "1" (some exp)

/-- `is_blacklisted(jti)`: `bool(redis.exists(f"blacklist:{jti}"))`, returning
the boolean together with the (possibly purged) store state. -/
def is_blacklisted (s : InMemoryRedis) (now : ℚ) (jti : String) :
    Bool × InMemoryRedis :=
  let r := s.exists now (blacklistKey jti)
  (r.1 != 0, r.2)

/-- One client-visible operation on the blacklist, with the wall-clock time
at which it runs. -/
inductive Op where
  | mark (jti : String) (exp : ℤ) (now : ℚ)
  | check (jti : String) (now : ℚ)

/-- Run one operation, keeping only its effect on the store. -/
def runOp (s : InMemoryRedis) : Op → InMemoryRedis
  | .mark j e n => add_to_blacklist s n j e
  | .check j n => (is_blacklisted s n j).2

/-- Run a sequence of operations from a given store state. -/
def runOps (s : InMemoryRedis) : List Op → InMemoryRedis
  | [] => s
  | op :: ops => runOps (runOp s op) ops

/-- Whether an operation is a `mark` (an `add_to_blacklist` call) of id `x`. -/
def Op.marksId (op : Op) (x : String) : Prop :=
  match op with
  | .mark j _ _ => j = x
  | .check _ _ => False

/-! The factory.  The module chooses its implementation at import time:
`import redis.asyncio` succeeding sets `_HAS_REAL_REDIS = True` and makes
`_create_redis` call `_redis_async.from_url`; on `Exception` the in-memory
class is defined and `_create_redis` returns a fresh `_InMemoryRedis`.
`get_redis` caches the constructed client as an attribute on itself and has
no exception handling of its own. -/

/-- A constructed client: the real redis client (identified by the url it
was built from) or the in-memory fallback. -/
inductive Store where
  | real (url : String)
  | inMemory (s : InMemoryRedis)

/-- Python `url or default` on an `Optional[str]`: `None` and `""` are falsy. -/
def pyOr (u : Option String) (d : String) : String :=
  match u with
  | none => d
  | some s => if s = "" then d else s

/-- `_create_redis(url)`.  `hasReal` is `_HAS_REAL_REDIS` (whether
`import redis.asyncio` succeeded); `fromUrl` gives the outcome of
`_redis_async.from_url` at each url (`.error` = the call raised, e.g.
connection refused or timeout).  In the fallback branch a fresh
`_InMemoryRedis` is returned and `fromUrl` is never consulted. -/
def create_redis (hasReal : Bool) (fromUrl : String → Except String Unit)
    (url : Option String) : Except String Store :=
  if hasReal then
    let u := pyOr url "redis://localhost"
    match fromUrl u with
    | .ok _ => .ok (.real u)
    | .error e => .error e
  else
    .ok (.inMemory InMemoryRedis.empty)

/-- `get_redis()`.  `cache` is the `get_redis.redis` attribute (`none` when
not yet set); `redisUrl` is `settings.REDIS_URL`.  Returns the client and the
updated cache; an exception from `_create_redis` propagates (there is no
`try`/`except` in `get_redis`). -/
def get_redis (hasReal : Bool) (fromUrl : String → Except String Unit)
    (redisUrl : Option String) (cache : Option Store) :
    Except String (Store × Option Store) :=
  match cache with
  | some r => .ok (r, some r)
  | none =>
    match create_redis hasReal fromUrl (some (pyOr redisUrl "redis://localhost")) with
    | .ok r => .ok (r, some r)
    | .error e => .error e

/-! Helper lemmas. -/

/-- The key namespace map `jti ↦ "blacklist:" ++ jti` is injective. -/
theorem blacklistKey_inj {x y : String} (h : blacklistKey x = blacklistKey y) :
    x = y := by
  cases x with
  | mk dx =>
    cases y with
    | mk dy =>
      have hd : ("blacklist:".data ++ dx) = ("blacklist:".data ++ dy) :=
        congrArg String.data h
      exact congrArg String.mk (List.append_cancel_left hd)

/-- `C1`: for every id `x` and every ttl `t > 0`, calling
`add_to_blacklist(x, t)` and then, with no clock advance, calling
`is_blacklisted(x)` returns `true`. -/
theorem mark_then_check_true (s : InMemoryRedis) (now : ℚ) (x : String)
    (t : ℤ) (ht : 0 < t) :
    (is_blacklisted (add_to_blacklist s now x t) now x).1 = true := by
  have hlt : ¬ now > now + (t : ℚ) := by
    simp only [not_lt]
    have : (0 : ℚ) < (t : ℚ) := by exact_mod_cast ht
    linarith
  simp [is_blacklisted, add_to_blacklist, InMemoryRedis.set,
    InMemoryRedis.exists, hlt]

/-- Witness for `C1` at `s = empty`, `now = 0`, `x = "a"`, `t = 5`. -/
theorem mark_then_check_true_witness :
    (is_blacklisted (add_to_blacklist InMemoryRedis.empty 0 "a" 5) 0 "a").1
      = true :=
  mark_then_check_true InMemoryRedis.empty 0 "a" 5 (by decide)

/-- If a key is absent, `exists` leaves it absent (it only ever deletes). -/
theorem exists_preserves_absent (s : InMemoryRedis) (now : ℚ) (k k' : String)
    (h : s.data k' = none) : ((s.exists now k).2).data k' = none := by
  unfold InMemoryRedis.exists
  match hk : s.data k with
  | none => simpa [hk]
  | some (v, expire) =>
    match expire with
    | none => simpa [hk]
    | some e =>
      by_cases hgt : now > e
      · simp only [hk, hgt, if_pos]
        simp [InMemoryRedis.erase, h]
      · simp [hk, hgt, h]

/-- A single operation that does not mark `x` keeps `x`'s key absent. -/
theorem runOp_preserves_absent (s : InMemoryRedis) (op : Op) (x : String)
    (h : s.data (blacklistKey x) = none) (hop : ¬ op.marksId x) :
    (runOp s op).data (blacklistKey x) = none := by
  match op with
  | .mark j e n =>
    have hne : blacklistKey x ≠ blacklistKey j := by
      intro hk
      exact hop (blacklistKey_inj hk).symm
    simp [runOp, add_to_blacklist, InMemoryRedis.set, hne, h]
  | .check j n =>
    simpa [runOp, is_blacklisted] using
      exists_preserves_absent s n (blacklistKey j) (blacklistKey x) h

/-- A whole trace of operations none of which marks `x` keeps `x`'s key
absent. -/
theorem runOps_preserves_absent (ops : List Op) (s : InMemoryRedis)
    (x : String) (h : s.data (blacklistKey x) = none)
    (hops : ∀ op ∈ ops, ¬ op.marksId x) :
    (runOps s ops).data (blacklistKey x) = none := by
  induction ops generalizing s with
  | nil => simpa [runOps]
  | cons op ops ih =>
    have h1 := runOp_preserves_absent s op x h (hops op (by simp))
    exact ih (runOp s op) h1 (fun o ho => hops o (by simp [ho]))

/-- `C2`: starting from the empty store, for every id never passed to
`add_to_blacklist` in a trace of mark/check operations, `is_blacklisted` on
that id returns false. -/
theorem never_marked_not_blacklisted (ops : List Op) (x : String)
    (hops : ∀ op ∈ ops, ¬ op.marksId x) (now : ℚ) :
    (is_blacklisted (runOps InMemoryRedis.empty ops) now x).1 = false := by
  have habs : (runOps InMemoryRedis.empty ops).data (blacklistKey x) = none :=
    runOps_preserves_absent ops InMemoryRedis.empty x rfl hops
  simp [is_blacklisted, InMemoryRedis.exists, habs]

/-- Witness for `C2`: a trace marking and checking `"b"` (and checking
`"a"`) leaves `"a"` not blacklisted. -/
theorem never_marked_not_blacklisted_witness :
    (is_blacklisted
      (runOps InMemoryRedis.empty
        [Op.mark "b" 5 0, Op.check "b" 1, Op.check "a" 1]) 2 "a").1 = false :=
  never_marked_not_blacklisted
    [Op.mark "b" 5 0, Op.check "b" 1, Op.check "a" 1] "a"
    (by intro op hop; fin_cases hop <;> simp [Op.marksId]) 2

/-- `C3` counterexample: immediately after `add_to_blacklist(x, 0)` with no
clock advance, `is_blacklisted(x)` returns `true`, not `false` as claimed:
the read comparison is strict (`time.time() > expire`), so an entry whose
`expire` equals the current time is still reported as present. -/
theorem zero_ttl_boundary_cex :
    (is_blacklisted (add_to_blacklist InMemoryRedis.empty 0 "a" 0) 0 "a").1
      = true := by
  simp [is_blacklisted, add_to_blacklist, InMemoryRedis.set,
    InMemoryRedis.exists]

/-- `C3` amended: immediately after `add_to_blacklist(x, 0)` the entry has
`expire = now` and `is_blacklisted(x)` at the same instant returns `true`
(the boundary instant is not yet expired: strict `>` on read); at any
strictly later time it returns `false`. -/
theorem zero_ttl_boundary (s : InMemoryRedis) (now now2 : ℚ) (x : String) :
    (is_blacklisted (add_to_blacklist s now x 0) now x).1 = true ∧
    (now < now2 →
      (is_blacklisted (add_to_blacklist s now x 0) now2 x).1 = false) := by
  constructor
  · simp [is_blacklisted, add_to_blacklist, InMemoryRedis.set,
      InMemoryRedis.exists]
  · intro hlt
    simp [is_blacklisted, add_to_blacklist, InMemoryRedis.set,
      InMemoryRedis.exists, InMemoryRedis.erase, hlt]

/-- Witness for amended `C3` at `now = 0`, `now2 = 1`, `x = "a"`. -/
theorem zero_ttl_boundary_witness :
    (is_blacklisted (add_to_blacklist InMemoryRedis.empty 0 "a" 0) 0 "a").1
        = true ∧
    (is_blacklisted (add_to_blacklist InMemoryRedis.empty 0 "a" 0) 1 "a").1
        = false :=
  ⟨(zero_ttl_boundary InMemoryRedis.empty 0 1 "a").1,
   (zero_ttl_boundary InMemoryRedis.empty 0 1 "a").2 (by norm_num)⟩

/-- `is_blacklisted` on an absent key: false, state unchanged. -/
theorem is_blacklisted_of_absent (s : InMemoryRedis) (now : ℚ) (x : String)
    (hk : s.data (blacklistKey x) = none) :
    is_blacklisted s now x = (false, s) := by
  unfold is_blacklisted InMemoryRedis.exists
  rw [hk]
  rfl

/-- `is_blacklisted` on an entry with no expiry: true, state unchanged. -/
theorem is_blacklisted_of_noexpiry (s : InMemoryRedis) (now : ℚ) (x v : String)
    (hk : s.data (blacklistKey x) = some (v, none)) :
    is_blacklisted s now x = (true, s) := by
  unfold is_blacklisted InMemoryRedis.exists
  rw [hk]
  rfl

/-- `is_blacklisted` on an entry with an expiry timestamp. -/
theorem is_blacklisted_of_expiry (s : InMemoryRedis) (now : ℚ) (x v : String)
    (e : ℚ) (hk : s.data (blacklistKey x) = some (v, some e)) :
    is_blacklisted s now x =
      if now > e then (false, s.erase (blacklistKey x)) else (true, s) := by
  unfold is_blacklisted InMemoryRedis.exists
  rw [hk]
  by_cases h : now > e <;> simp [h]

/-- `C5`: after `is_blacklisted(x)` returns, the store holds no entry for
`x`'s key whose expiry is in the past; and an entry that was expired at the
call is reported as not blacklisted and physically deleted by that call. -/
theorem is_blacklisted_lazy_purge (s : InMemoryRedis) (now : ℚ) (x : String) :
    (∀ v e, ((is_blacklisted s now x).2).data (blacklistKey x)
        = some (v, some e) → now ≤ e) ∧
    (∀ v e, s.data (blacklistKey x) = some (v, some e) → e < now →
      (is_blacklisted s now x).1 = false ∧
      ((is_blacklisted s now x).2).data (blacklistKey x) = none) := by
  constructor
  · intro v e hve
    rcases hk : s.data (blacklistKey x) with _ | ⟨v0, _ | e0⟩
    · rw [is_blacklisted_of_absent s now x hk] at hve
      exact absurd (hk ▸ hve) (by simp)
    · rw [is_blacklisted_of_noexpiry s now x v0 hk] at hve
      rw [hk] at hve
      exact absurd hve (by simp)
    · rw [is_blacklisted_of_expiry s now x v0 e0 hk] at hve
      by_cases hgt : now > e0
      · rw [if_pos hgt] at hve
        simp [InMemoryRedis.erase] at hve
      · rw [if_neg hgt] at hve
        rw [hk] at hve
        simp only [Option.some.injEq, Prod.mk.injEq] at hve
        exact hve.2 ▸ le_of_not_lt hgt
  · intro v e hve he
    rw [is_blacklisted_of_expiry s now x v e hve]
    simp [InMemoryRedis.erase, he]

/-- Witness for `C5`: mark `"a"` at time 0 with ttl 1, check at time 2 —
reported not blacklisted and the entry is physically gone. -/
theorem is_blacklisted_lazy_purge_witness :
    (is_blacklisted (add_to_blacklist InMemoryRedis.empty 0 "a" 1) 2 "a").1
        = false ∧
    ((is_blacklisted (add_to_blacklist InMemoryRedis.empty 0 "a" 1) 2
        "a").2).data (blacklistKey "a") = none :=
  (is_blacklisted_lazy_purge (add_to_blacklist InMemoryRedis.empty 0 "a" 1)
      2 "a").2 "1" (0 + (1 : ℚ)) (by simp [add_to_blacklist, InMemoryRedis.set])
    (by norm_num)

/-- `C6`: re-marking the same id overwrites — afterwards the key holds
exactly the entry `("1", now2 + t2)` — and in particular after marking with
ttl 10 then ttl 1, any check strictly past one second after the second mark
returns false. -/
theorem last_write_wins (s : InMemoryRedis) (now1 now2 : ℚ) (x : String)
    (t1 t2 : ℤ) :
    ((add_to_blacklist (add_to_blacklist s now1 x t1) now2 x t2).data
        (blacklistKey x) = some ("1", some (now2 + (t2 : ℚ)))) ∧
    (∀ now3 : ℚ, now2 + 1 < now3 →
      (is_blacklisted
        (add_to_blacklist (add_to_blacklist s now1 x 10) now2 x 1)
        now3 x).1 = false) := by
  constructor
  · simp [add_to_blacklist, InMemoryRedis.set]
  · intro now3 h3
    have hk : (add_to_blacklist (add_to_blacklist s now1 x 10) now2 x 1).data
        (blacklistKey x) = some ("1", some (now2 + ((1 : ℤ) : ℚ))) := by
      simp [add_to_blacklist, InMemoryRedis.set]
    rw [is_blacklisted_of_expiry _ now3 x "1" _ hk]
    have hgt : now3 > now2 + ((1 : ℤ) : ℚ) := by push_cast; linarith
    rw [if_pos hgt]

/-- Witness for `C6` at `s = empty`, `now1 = now2 = 0`, `x = "a"`,
`t1 = 10`, `t2 = 1`, `now3 = 2`. -/
theorem last_write_wins_witness :
    ((add_to_blacklist (add_to_blacklist InMemoryRedis.empty 0 "a" 10) 0 "a"
        1).data (blacklistKey "a") = some ("1", some (0 + ((1 : ℤ) : ℚ)))) ∧
    (is_blacklisted
        (add_to_blacklist (add_to_blacklist InMemoryRedis.empty 0 "a" 10) 0
          "a" 1) 2 "a").1 = false :=
  ⟨(last_write_wins InMemoryRedis.empty 0 0 "a" 10 1).1,
   (last_write_wins InMemoryRedis.empty 0 0 "a" 10 1).2 2 (by norm_num)⟩

/-- `C7`: for an id with no entry in the store, `is_blacklisted` returns the
normal value `false` (with the store unchanged); absence is an ordinary
result of the total function, not a failure. -/
theorem missing_key_returns_false (s : InMemoryRedis) (now : ℚ) (x : String)
    (h : s.data (blacklistKey x) = none) :
    is_blacklisted s now x = (false, s) :=
  is_blacklisted_of_absent s now x h

/-- Witness for `C7` on the empty store. -/
theorem missing_key_returns_false_witness :
    is_blacklisted InMemoryRedis.empty 0 "a" = (false, InMemoryRedis.empty) :=
  missing_key_returns_false InMemoryRedis.empty 0 "a" rfl

/-- `C9`: a negative ttl is accepted: `add_to_blacklist` stores
`expire = now + t`, a time strictly in the past, and a subsequent
`is_blacklisted` at the same instant returns false. -/
theorem negative_ttl_immediately_expired (s : InMemoryRedis) (now : ℚ)
    (x : String) (t : ℤ) (ht : t < 0) :
    ((add_to_blacklist s now x t).data (blacklistKey x)
        = some ("1", some (now + (t : ℚ)))) ∧
    now + (t : ℚ) < now ∧
    (is_blacklisted (add_to_blacklist s now x t) now x).1 = false := by
  have hpast : now + (t : ℚ) < now := by
    have : (t : ℚ) < 0 := by exact_mod_cast ht
    linarith
  refine ⟨by simp [add_to_blacklist, InMemoryRedis.set], hpast, ?_⟩
  have hk : (add_to_blacklist s now x t).data (blacklistKey x)
      = some ("1", some (now + (t : ℚ))) := by
    simp [add_to_blacklist, InMemoryRedis.set]
  rw [is_blacklisted_of_expiry _ now x "1" _ hk, if_pos hpast]

/-- Witness for `C9` at `s = empty`, `now = 0`, `x = "a"`, `t = -5`. -/
theorem negative_ttl_immediately_expired_witness :
    ((add_to_blacklist InMemoryRedis.empty 0 "a" (-5)).data (blacklistKey "a")
        = some ("1", some (0 + ((-5 : ℤ) : ℚ)))) ∧
    0 + ((-5 : ℤ) : ℚ) < 0 ∧
    (is_blacklisted (add_to_blacklist InMemoryRedis.empty 0 "a" (-5)) 0
        "a").1 = false :=
  negative_ttl_immediately_expired InMemoryRedis.empty 0 "a" (-5) (by decide)

/-- The outcome of `is_blacklisted` depends only on the entry stored at its
own key. -/
theorem is_blacklisted_fst_congr (s1 s2 : InMemoryRedis) (now : ℚ)
    (y : String)
    (h : s1.data (blacklistKey y) = s2.data (blacklistKey y)) :
    (is_blacklisted s1 now y).1 = (is_blacklisted s2 now y).1 := by
  rcases hk : s2.data (blacklistKey y) with _ | ⟨v, _ | e⟩
  · rw [is_blacklisted_of_absent s1 now y (h.trans hk),
      is_blacklisted_of_absent s2 now y hk]
  · rw [is_blacklisted_of_noexpiry s1 now y v (h.trans hk),
      is_blacklisted_of_noexpiry s2 now y v hk]
  · rw [is_blacklisted_of_expiry s1 now y v e (h.trans hk),
      is_blacklisted_of_expiry s2 now y v e hk]
    by_cases hgt : now > e <;> simp [hgt]

/-- `C10`: for distinct ids `x ≠ y`, marking `x` and checking `x` both leave
the result of checking `y` unchanged: each operation touches only its own
namespaced key, and the key derivation is injective. -/
theorem distinct_ids_frame (s : InMemoryRedis) (now now2 : ℚ) (x y : String)
    (t : ℤ) (hxy : x ≠ y) :
    (is_blacklisted (add_to_blacklist s now x t) now2 y).1
        = (is_blacklisted s now2 y).1 ∧
    (is_blacklisted ((is_blacklisted s now x).2) now2 y).1
        = (is_blacklisted s now2 y).1 := by
  have hkey : blacklistKey y ≠ blacklistKey x := fun hk =>
    hxy (blacklistKey_inj hk).symm
  constructor
  · refine is_blacklisted_fst_congr _ s now2 y ?_
    simp [add_to_blacklist, InMemoryRedis.set, hkey]
  · refine is_blacklisted_fst_congr _ s now2 y ?_
    rcases hk : s.data (blacklistKey x) with _ | ⟨v, _ | e⟩
    · rw [is_blacklisted_of_absent s now x hk]
    · rw [is_blacklisted_of_noexpiry s now x v hk]
    · rw [is_blacklisted_of_expiry s now x v e hk]
      by_cases hgt : now > e
      · rw [if_pos hgt]
        simp [InMemoryRedis.erase, hkey]
      · rw [if_neg hgt]

/-- Witness for `C10` at `x = "a"`, `y = "b"`, on a store where `"b"` is
blacklisted. -/
theorem distinct_ids_frame_witness :
    (is_blacklisted
        (add_to_blacklist (add_to_blacklist InMemoryRedis.empty 0 "b" 9) 0
          "a" 5) 0 "b").1
      = (is_blacklisted (add_to_blacklist InMemoryRedis.empty 0 "b" 9) 0
          "b").1 ∧
    (is_blacklisted
        ((is_blacklisted (add_to_blacklist InMemoryRedis.empty 0 "b" 9) 0
          "a").2) 0 "b").1
      = (is_blacklisted (add_to_blacklist InMemoryRedis.empty 0 "b" 9) 0
          "b").1 :=
  distinct_ids_frame (add_to_blacklist InMemoryRedis.empty 0 "b" 9) 0 0 "a"
    "b" 5 (by decide)

/-- `C4` counterexample: with the real redis dependency present
(`_HAS_REAL_REDIS = True`) and construction failing (connection refused),
`get_redis` propagates the failure instead of substituting the in-memory
fallback — the fallback is chosen only at import time, and `get_redis` has
no exception handler. -/
theorem get_redis_no_runtime_fallback_cex :
    get_redis true (fun _ => .error "connection refused") none none
      = .error "connection refused" := rfl

/-- `C4` amended: the in-memory fallback is substituted exactly when the
optional redis dependency fails to import — in that case `get_redis`
deterministically returns the in-memory store whatever the configuration —
while with the dependency present a construction failure propagates to the
caller. -/
theorem fallback_only_on_import_failure
    (fromUrl : String → Except String Unit) (redisUrl : Option String)
    (msg : String) :
    get_redis false fromUrl redisUrl none
      = .ok (.inMemory InMemoryRedis.empty,
             some (.inMemory InMemoryRedis.empty)) ∧
    get_redis true (fun _ => .error msg) redisUrl none = .error msg := by
  constructor
  · simp [get_redis, create_redis]
  · simp [get_redis, create_redis]

/-- `C8`: `get_redis` is idempotent: whenever a first call (with an empty
cache) returns a client, it caches exactly that client, and every later
call returns the identical client and leaves the cache unchanged. -/
theorem get_redis_idempotent (hasReal : Bool)
    (fromUrl : String → Except String Unit) (redisUrl : Option String)
    (r : Store) (c : Option Store)
    (h : get_redis hasReal fromUrl redisUrl none = .ok (r, c)) :
    c = some r ∧ get_redis hasReal fromUrl redisUrl c = .ok (r, c) := by
  unfold get_redis at h
  rcases hc : create_redis hasReal fromUrl
      (some (pyOr redisUrl "redis://localhost")) with e | r0
  · rw [hc] at h
    exact absurd h (by simp)
  · rw [hc] at h
    simp only [Except.ok.injEq, Prod.mk.injEq] at h
    rcases h with ⟨rfl, rfl⟩
    exact ⟨rfl, rfl⟩

/-- Witness for `C8` in the import-failure configuration: the first call
caches the in-memory client and the second call returns it unchanged. -/
theorem get_redis_idempotent_witness :
    (some (Store.inMemory InMemoryRedis.empty)
        = some (Store.inMemory InMemoryRedis.empty)) ∧
    get_redis false (fun _ => .ok ()) none
        (some (Store.inMemory InMemoryRedis.empty))
      = .ok (.inMemory InMemoryRedis.empty,
             some (.inMemory InMemoryRedis.empty)) :=
  get_redis_idempotent false (fun _ => .ok ()) none
    (.inMemory InMemoryRedis.empty)
    (some (.inMemory InMemoryRedis.empty)) rfl
